import Mathlib

/-!
Verification of `create-frontend-setup` (files `src/scaffold.mjs` and
`bin/cli.mjs`) against its specification.

The tool is a one-shot scaffolder: it validates the target directory,
spawns an external project generator, optionally spawns three
package-manager install commands, creates a fixed folder tree and writes
a fixed set of template files.

Shallow embedding used here:
* File-system paths are modelled as lists of path segments
  (`path.resolve(cwd, name)` becomes `cwd ++ [name]`, `path.join(p, s)`
  becomes `p ++ [s]`, and a joined argument such as
  `"components/UserControls"` becomes the two segments it denotes).
* Every side effect of `scaffold` (child-process spawn, `mkdirp`,
  `writeFile`, `console.log`) is recorded, in program order, as an
  `Event` in a trace.  The `await` on each child process means the next
  event is only emitted once the previous spawn has completed; the
  `Promise.all` of step 4 issues its `mkdirp` calls together and the
  trace records them in the order they are issued.
* The environment `Env` supplies everything the real run reads from the
  outside world: the working directory, whether the target directory
  exists, its directory listing, and for each spawned child process
  (numbered in spawn order) whether it succeeds and, if not, the error
  message `execa` raises for it.  File-system primitives themselves are
  modelled as infallible, matching the failure taxonomy of the spec for the
  cases studied here (child-process failure and the precondition check).
* A thrown JS error is an `Except.error` carrying the message.
-/

/-- One observable side effect of a run.  `spawn` records the command,
its argument list and the working directory it is given; `mkdirp` and
`writeFile` record the affected path (as segments); `log` records a
console message. -/
inductive Event where
  | spawn (cmd : String) (args : List String) (cwd : List String)
  | mkdirp (p : List String)
  | writeFile (p : List String) (content : String)
  | log (msg : String)
deriving Repr, DecidableEq

/-- The argument object of `scaffold({ appName, packageManager, install })`. -/
structure Config where
  appName : String
  packageManager : String
  install : Bool
deriving Repr, DecidableEq

/-- The outside world as `scaffold` observes it: the current working
directory, the result of `fs.pathExists(appDir)`, the result of
`fs.readdir(appDir)` (consulted only when the directory exists), and the
outcome of the n-th spawned child process (`spawnOk n` — `true` when the
process exits with status 0) together with the message of the error
`execa` raises when it fails. -/
structure Env where
  cwd : List String
  appDirPresent : Bool
  appDirEntries : List String
  spawnOk : Nat → Bool
  spawnErrMsg : Nat → String

/-- Result of a run of `scaffold`: the outcome (normal return or thrown
error message) and the ordered trace of side effects performed. -/
structure ScaffoldResult where
  outcome : Except String Unit
  trace : List Event
deriving Repr

/-- The generator invocation chosen from `viteArgsByPM` by the
`if`/`else if` chain of `scaffold.mjs` lines 20–31: command name and
argument list.  Any value other than `pnpm`, `yarn` and `bun` takes the
initial assignment `cmd = "npm"; args = viteArgsByPM.npm`. -/
def generatorCmdArgs (packageManager appName : String) : String × List String :=
  if packageManager = "pnpm" then
    ("pnpm", ["create", "vite", appName, "--template", "react"])
  else if packageManager = "yarn" then
    ("yarn", ["create", "vite", appName, "--template", "react"])
  else if packageManager = "bun" then
    ("bun", ["x", "create-vite", appName, "--template", "react"])
  else
    ("npm", ["create", "vite@latest", appName, "--", "--template", "react"])

/-- The nine `mk(...)` folder paths of step 4 (`scaffold.mjs` lines
45–55), each under `appDir/src`, in the order they appear in the
`Promise.all` list. -/
def srcFolderPaths (appDir : List String) : List (List String) :=
  let src := appDir ++ ["src"]
  [ src ++ ["__tests__"],
    src ++ ["assets"],
    src ++ ["components", "UserControls"],
    src ++ ["external"],
    src ++ ["helpers"],
    src ++ ["hooks"],
    src ++ ["redux"],
    src ++ ["styles", "abstract"],
    src ++ ["styles", "pages"] ]

/-- Content of `src/HomeLayout.jsx` (the `homeLayout` template string,
`scaffold.mjs` lines 61–88). -/
def homeLayout : String :=
  String.intercalate "\n" [
    "import \x7b useDispatch \x7d from \"react-redux\";",
    "import \x7b useGlobalHook \x7d from \"./hooks/useGlobalHook\";",
    "import \x7b setWelcomeMessage \x7d from \"./redux/globalSlice\";",
    "",
    "export default function HomeLayout() \x7b",
    "  const \x7b welcomeMessage \x7d = useGlobalHook();",
    "  const dispatch = useDispatch();",
    "",
    "  const handleClick = () => \x7b",
    "    dispatch(setWelcomeMessage(\"hey i am in In hello\"));",
    "  \x7d;",
    "",
    "  return (",
    "    <main style=\x7b\x7b display: \"grid\", gap: 16 \x7d\x7d>",
    "      <header>",
    "        <h1>HomeLayout</h1>",
    "        <p>Welcome message from Redux: <strong>\x7bwelcomeMessage\x7d</strong></p>",
    "      </header>",
    "",
    "      <section>",
    "        <button onClick=\x7bhandleClick\x7d className=\"btn-change\">",
    "          Change Welcome Message",
    "        </button>",
    "      </section>",
    "    </main>",
    "  );",
    "\x7d"] ++ "\n"

/-- Content of `src/helpers/helperFunctions.js` (`scaffold.mjs` line 92). -/
def helperFunctionsJs : String :=
  "export const JPJS = (x)=>JSON.parse(JSON.stringify(x));\n"

/-- Content of `src/helpers/screenMappers.jsx` (`scaffold.mjs` line 93). -/
def screenMappersJsx : String :=
  "export const screens = \x7b\x7d; // add mappings here\n"

/-- Content of `src/hooks/useGlobalHook.js` (the `globalHook` template
string, `scaffold.mjs` lines 96–102). -/
def globalHook : String :=
  String.intercalate "\n" [
    "import \x7b useSelector, useDispatch \x7d from \"react-redux\";",
    "export const useGlobalHook = () => \x7b",
    "  const dispatch = useDispatch();",
    "  const welcomeMessage = useSelector((s) => s.global.welcomeMessage);",
    "  return \x7b dispatch, welcomeMessage \x7d;",
    "\x7d;"] ++ "\n"

/-- Content of `src/redux/initialState.js` (the `initialState` template
string, `scaffold.mjs` lines 106–111). -/
def initialState : String :=
  String.intercalate "\n" [
    "export const initialState = \x7b",
    "  global: \x7b",
    "    welcomeMessage: \"hello\",",
    "  \x7d,",
    "\x7d;"] ++ "\n"

/-- Content of `src/redux/globalSlice.js` (the `globalSlice` template
string, `scaffold.mjs` lines 114–129). -/
def globalSlice : String :=
  String.intercalate "\n" [
    "import \x7b createSlice \x7d from \"@reduxjs/toolkit\";",
    "import \x7b initialState \x7d from \"./initialState\";",
    "",
    "const globalSlice = createSlice(\x7b",
    "  name: \"global\",",
    "  initialState: initialState.global,",
    "  reducers: \x7b",
    "    setWelcomeMessage(state, action) \x7b",
    "      state.welcomeMessage = action.payload;",
    "    \x7d,",
    "  \x7d,",
    "\x7d);",
    "",
    "export const \x7b setWelcomeMessage \x7d = globalSlice.actions;",
    "export default globalSlice.reducer;"] ++ "\n"

/-- Content of `src/redux/store.js` (the `store` template string,
`scaffold.mjs` lines 132–142). -/
def store : String :=
  String.intercalate "\n" [
    "import \x7b configureStore \x7d from \"@reduxjs/toolkit\";",
    "import global from \"./globalSlice\";",
    "",
    "export const store = configureStore(\x7b",
    "  reducer: \x7b",
    "    global,",
    "  \x7d,",
    "\x7d);",
    "",
    "export default store;"] ++ "\n"

/-- Content of `src/external/customAxiosInstance.js` (the
`customAxiosInstance` template string, `scaffold.mjs` lines 146–151). -/
def customAxiosInstance : String :=
  String.intercalate "\n" [
    "import axios from \"axios\";",
    "",
    "export const customAxios = axios.create(\x7b",
    "  baseURL: localStorage.getItem(\"API_ENDPOINT\"),",
    "\x7d);"] ++ "\n"

/-- Content of `src/external/api.js` (the `apiJs` template string,
`scaffold.mjs` lines 154–174). -/
def apiJs : String :=
  String.intercalate "\n" [
    "import \x7b createAsyncThunk \x7d from \"@reduxjs/toolkit\";",
    "import axios from \"axios\";",
    "import \x7b customAxios \x7d from \"./customAxiosInstance\";",
    "",
    "export const fetchConfig = createAsyncThunk(",
    "  \"getConfigJson\",",
    "  async (_, \x7b rejectWithValue \x7d) => \x7b",
    "    try \x7b",
    "      const res = await axios.get(\"/config.json\");",
    "      const data = await res.data;",
    "      localStorage.setItem(\"API_ENDPOINT\", data.apiEndpoint);",
    "      customAxios.defaults.baseURL = localStorage.getItem(\"API_ENDPOINT\");",
    "      return data;",
    "    \x7d catch (err) \x7b",
    "      return rejectWithValue(\x7b",
    "        error: err?.response?.data?.detail || \"Could not fetch details.\",",
    "      \x7d);",
    "    \x7d",
    "  \x7d",
    ");"] ++ "\n"

/-- Content of `src/__tests__/setup.js` (`scaffold.mjs` line 178). -/
def setupJs : String :=
  "// vitest/jest setup\n"

/-- Content of `public/config.json` (`scaffold.mjs` line 181). -/
def configJson : String :=
  "\x7b\n  \"apiEndpoint\": \"http://localhost:8000\"\n\x7d\n"

/-- Content of `src/styles/abstract/_colors.scss` (`scaffold.mjs` lines
185–191). -/
def colorsScss : String :=
  String.intercalate "\n" [
    "$primary: #2563eb;",
    "$accent-blue: #4f46e5;",
    "$ink-900: #0f172a;",
    "$success: #10b981;",
    "$warn: #f59e0b;",
    "$danger: #ef4444;"] ++ "\n"

/-- Content of `src/styles/abstract/_variables.scss` (`scaffold.mjs`
lines 193–197). -/
def variablesScss : String :=
  String.intercalate "\n" [
    "$ff: \"Poppins\", system-ui, -apple-system, Segoe UI, Roboto, Arial, sans-serif;",
    "$fs-10: 10px; $fs-11: 11px; $fs-12: 12px; $fs-13: 13px; $fs-14: 14px;",
    "$sp-4: 4px; $sp-6: 6px; $sp-8: 8px; $sp-10: 10px; $sp-12: 12px; $sp-16: 16px;",
    "$radius-6: 6px; $radius-8: 8px; $radius-10: 10px;"] ++ "\n"

/-- Content of `src/styles/abstract/_mixins.scss` (`scaffold.mjs` lines
200–234). -/
def mixinsScss : String :=
  String.intercalate "\n" [
    "@import url(\x27https://fonts.googleapis.com/css2?family=Poppins:wght@400;500;700&display=swap\x27);",
    "",
    "@mixin app-text($fs, $color, $weight: 400) \x7b",
    "  font-family: \x27Poppins\x27;",
    "  font-size: $fs;",
    "  color: $color;",
    "  font-weight: $weight;",
    "  letter-spacing: 0.01em;",
    "\x7d",
    "",
    "@mixin flex-center \x7b display:flex; align-items:center; justify-content:center; \x7d",
    "",
    "@mixin transition-smooth \x7b transition: all 0.2s ease-in-out; \x7d",
    "",
    "@mixin shadow-card \x7b box-shadow: 0 1px 3px 0 rgb(0 0 0 / 0.1), 0 1px 2px -1px rgb(0 0 0 / 0.1); \x7d",
    "",
    "@mixin shadow-hover \x7b box-shadow: 0 4px 6px -1px rgb(0 0 0 / 0.1), 0 2px 4px -2px rgb(0 0 0 / 0.1); \x7d",
    "",
    "@mixin layout-row-start() \x7b",
    "  display:flex; flex-direction:row; align-items:flex-start; justify-content:flex-start;",
    "\x7d",
    "",
    "@mixin layout($flexdirection: row, $justifycontent: center, $alignitems: center) \x7b",
    "  display:flex; flex-direction:$flexdirection; align-items:$alignitems; justify-content:$justifycontent;",
    "\x7d",
    "",
    "@mixin font-props($font-weight, $font-size, $font-color) \x7b",
    "  font-family: \"Poppins\"; font-weight:$font-weight; font-size:$font-size; color:$font-color;",
    "\x7d",
    "",
    "@mixin mobile \x7b @media (max-width: 480px) \x7b @content; \x7d \x7d",
    "@mixin tablet \x7b @media (min-width: 481px) and (max-width: 768px) \x7b @content; \x7d \x7d",
    "@mixin desktop \x7b @media (min-width: 769px) and (max-width: 1279px) \x7b @content; \x7d \x7d",
    "@mixin larger-desktop \x7b @media (min-width: 1280px) \x7b @content; \x7d \x7d"] ++ "\n"

/-- Content of `src/styles/_main.scss` (`scaffold.mjs` lines 236–247). -/
def mainScss : String :=
  String.intercalate "\n" [
    "@use \"abstract/colors\";",
    "@use \"abstract/variables\";",
    "@use \"abstract/mixins\";",
    "",
    ":root \x7b font-family: variables.$ff; color: colors.$ink-900; \x7d",
    "body \x7b margin:0; background:#f8fafc; \x7d",
    "",
    ".container \x7b padding: 16px; border: 1px solid rgba(0,0,0,.06); border-radius: 10px; background: #fff; \x7d",
    ".btn-change \x7b @include mixins.app-text(14px, colors.$ink-900, 500); padding: 8px 12px; border:1px solid rgba(0,0,0,.12); border-radius:8px; background:#fff; cursor:pointer; @include mixins.transition-smooth; \x7d",
    ".btn-change:hover \x7b @include mixins.shadow-hover; transform: translateY(-1px); \x7d"] ++ "\n"

/-- Content of `src/App.jsx` (the `appJsx` template string,
`scaffold.mjs` lines 250–286; note: no trailing newline). -/
def appJsx : String :=
  String.intercalate "\n" [
    "import \"./styles/_main.scss\";",
    "import HomeLayout from \"./HomeLayout.jsx\";",
    "import \x7b Toaster \x7d from \"react-hot-toast\";",
    "import \x7b useEffect \x7d from \"react\";",
    "import \x7b useDispatch \x7d from \"react-redux\";",
    "import \x7b fetchConfig \x7d from \"./external/api\";",
    "",
    "function App() \x7b",
    "  const dispatch = useDispatch();",
    "",
    "  useEffect(() => \x7b",
    "    dispatch(fetchConfig());",
    "  \x7d, [dispatch]);",
    "",
    "  return (",
    "    <div className=\"container\">",
    "      <HomeLayout />",
    "      <Toaster",
    "        position=\"top-right\"",
    "        toastOptions=\x7b\x7b",
    "          duration: 3000,",
    "          style: \x7b",
    "            fontSize: \"14px\",",
    "            marginTop: 20,",
    "            color: \"#fff\",",
    "            fontFamily: \"Poppins\",",
    "            letterSpacing: \"0.7px\",",
    "          \x7d,",
    "          success: \x7b style: \x7b background: \"#098d6e\" \x7d \x7d,",
    "          loading: \x7b style: \x7b background: \"#162b42\" \x7d \x7d,",
    "          error: \x7b style: \x7b background: \"#ed5565\" \x7d \x7d,",
    "        \x7d\x7d",
    "      />",
    "    </div>",
    "  );",
    "\x7d",
    "export default App;"]

/-- Content of `src/main.jsx` (the `mainJsx` template string,
`scaffold.mjs` lines 290–303). -/
def mainJsx : String :=
  String.intercalate "\n" [
    "import React from \"react\";",
    "import ReactDOM from \"react-dom/client\";",
    "import App from \"./App.jsx\";",
    "import \x7b Provider \x7d from \"react-redux\";",
    "import \x7b store \x7d from \"./redux/store\";",
    "",
    "ReactDOM.createRoot(document.getElementById(\"root\")).render(",
    "  <React.StrictMode>",
    "    <Provider store=\x7bstore\x7d>",
    "      <App />",
    "    </Provider>",
    "  </React.StrictMode>",
    ");"] ++ "\n"

/-- The final `console.log` message (`scaffold.mjs` line 307; the source
writes `"\\n"`, a literal backslash followed by `n`). -/
def scaffoldDoneMsg : String :=
  "\\n Scaffolded Redux, hooks, API, Toaster, and SCSS successfully."

/-- The target directory `path.resolve(process.cwd(), appName)`
(`scaffold.mjs` line 10), in the segment model. -/
def appDirOf (cfg : Config) (env : Env) : List String :=
  env.cwd ++ [cfg.appName]

/-- The error thrown when the target directory exists and is non-empty
(`scaffold.mjs` line 14). -/
def dirNotEmptyMsg (appName : String) : String :=
  "Directory \x27" ++ appName ++ "\x27 already exists and is not empty."

/-- The trace entry for one child process: command, arguments, working
directory. -/
def spawnEvent (s : String × List String × List String) : Event :=
  Event.spawn s.1 s.2.1 s.2.2

/-- The trace entry for one file write: path and content. -/
def writeEvent (pc : List String × String) : Event :=
  Event.writeFile pc.1 pc.2

/-- The seventeen `fs.writeFile` calls of step 5 (`scaffold.mjs` lines
89–304), in source order: target path and content. -/
def fileWrites (appDir : List String) : List (List String × String) :=
  let src := appDir ++ ["src"]
  [ (src ++ ["HomeLayout.jsx"], homeLayout),
    (src ++ ["helpers", "helperFunctions.js"], helperFunctionsJs),
    (src ++ ["helpers", "screenMappers.jsx"], screenMappersJsx),
    (src ++ ["hooks", "useGlobalHook.js"], globalHook),
    (src ++ ["redux", "initialState.js"], initialState),
    (src ++ ["redux", "globalSlice.js"], globalSlice),
    (src ++ ["redux", "store.js"], store),
    (src ++ ["external", "customAxiosInstance.js"], customAxiosInstance),
    (src ++ ["external", "api.js"], apiJs),
    (src ++ ["__tests__", "setup.js"], setupJs),
    (appDir ++ ["public", "config.json"], configJson),
    (src ++ ["styles", "abstract", "_colors.scss"], colorsScss),
    (src ++ ["styles", "abstract", "_variables.scss"], variablesScss),
    (src ++ ["styles", "abstract", "_mixins.scss"], mixinsScss),
    (src ++ ["styles", "_main.scss"], mainScss),
    (src ++ ["App.jsx"], appJsx),
    (src ++ ["main.jsx"], mainJsx) ]

/-- The `mkdirp` events of step 4: the nine `src` subfolders of the
`Promise.all` (in issue order) followed by `appDir/public`
(`scaffold.mjs` lines 45–56). -/
def folderEvents (appDir : List String) : List Event :=
  (srcFolderPaths appDir).map Event.mkdirp ++ [Event.mkdirp (appDir ++ ["public"])]

/-- Everything `scaffold` does after the last child process has
succeeded: the step 4 folder creations, the step 5 file writes, and the
final `console.log` (`scaffold.mjs` lines 43–307). -/
def scaffoldTail (appDir : List String) : List Event :=
  folderEvents appDir
    ++ (fileWrites appDir).map writeEvent
    ++ [Event.log scaffoldDoneMsg]

/-- The child processes `scaffold` intends to run, in order: the
generator invocation in the current working directory (`scaffold.mjs`
line 33), then — only when `install` is set — the three package-manager
commands in the target directory (`scaffold.mjs` lines 36–40). -/
def plannedSpawns (cfg : Config) (cwd appDir : List String) :
    List (String × List String × List String) :=
  let g := generatorCmdArgs cfg.packageManager cfg.appName
  (g.1, g.2, cwd) ::
    (if cfg.install then
      [ (cfg.packageManager, ["install"], appDir),
        (cfg.packageManager, ["add", "-D", "sass"], appDir),
        (cfg.packageManager,
          ["add", "@reduxjs/toolkit", "react-redux", "axios", "react-hot-toast"], appDir) ]
     else [])

/-- Run a list of child processes strictly in sequence: each one is
awaited, and the first failure stops the run with the error from `execa` while
later processes are never spawned.  `i` numbers the spawns so `Env` can
assign each its outcome. -/
def runSpawns (env : Env) : Nat → List (String × List String × List String) →
    List Event × Except String Unit
  | _, [] => ([], .ok ())
  | i, s :: rest =>
    if env.spawnOk i then
      let r := runSpawns env (i + 1) rest
      (spawnEvent s :: r.1, r.2)
    else
      ([spawnEvent s], .error (env.spawnErrMsg i))

/-- Steps 2–7 of `scaffold` (`scaffold.mjs` lines 19–307): run the
generator and (optionally) the install commands in sequence; if all
succeed, perform the folder creations, file writes and final log.  `t0`
carries the step 1 trace. -/
def scaffoldFrom (cfg : Config) (env : Env) (appDir : List String)
    (t0 : List Event) : ScaffoldResult :=
  let r := runSpawns env 0 (plannedSpawns cfg env.cwd appDir)
  { outcome := r.2,
    trace := t0 ++ r.1
      ++ (match r.2 with | .ok _ => scaffoldTail appDir | .error _ => []) }

/-- The whole of `scaffold` (`scaffold.mjs` lines 9–308).  Step 1: if
the target directory exists, a non-empty listing throws before any
other side effect; an empty listing proceeds with no mutation; a missing
directory is created (with parents) first. -/
def scaffold (cfg : Config) (env : Env) : ScaffoldResult :=
  let appDir := appDirOf cfg env
  if env.appDirPresent then
    if env.appDirEntries.length ≠ 0 then
      { outcome := .error (dirNotEmptyMsg cfg.appName), trace := [] }
    else
      scaffoldFrom cfg env appDir []
  else
    scaffoldFrom cfg env appDir [Event.mkdirp appDir]

/-- Result of one CLI invocation: the process exit status and the lines
printed to standard output and to the error stream by the CLI itself. -/
structure CliResult where
  exitCode : Nat
  stdout : List String
  stderr : List String
deriving Repr, DecidableEq

/-- The success message of `bin/cli.mjs` line 17, naming the next manual
steps (`cd` into the app and start the dev server). -/
def cliDoneMsg (appName packageManager : String) : String :=
  "\n Done. Next:\n  cd " ++ appName ++ "\n  " ++ packageManager ++ " run dev\n"

/-- The error line of `bin/cli.mjs` line 19 (`console.error` joins its
two arguments with a space). -/
def cliFailMsg (msg : String) : String :=
  "\n Scaffold failed: " ++ msg

/-- The `program.action` handler of `bin/cli.mjs` lines 14–22: await
`scaffold`; on normal return print the done message (exit status 0 by
normal process termination), on a thrown error print its message to the
error stream and `process.exit(1)`. -/
def cliRun (appName packageManager : String) (install : Bool) (env : Env) : CliResult :=
  match (scaffold ⟨appName, packageManager, install⟩ env).outcome with
  | .ok _ => { exitCode := 0, stdout := [cliDoneMsg appName packageManager], stderr := [] }
  | .error m => { exitCode := 1, stdout := [], stderr := [cliFailMsg m] }

/-- The child-process invocations of a trace, in order. -/
def spawnsOf : List Event → List (String × List String × List String)
  | [] => []
  | Event.spawn c a w :: t => (c, a, w) :: spawnsOf t
  | _ :: t => spawnsOf t

/-- The `(path, content)` pairs written by a trace, in order. -/
def writesOf : List Event → List (List String × String)
  | [] => []
  | Event.writeFile p c :: t => (p, c) :: writesOf t
  | _ :: t => writesOf t

/-- The directories created by a trace, in order. -/
def mkdirsOf : List Event → List (List String)
  | [] => []
  | Event.mkdirp p :: t => p :: mkdirsOf t
  | _ :: t => mkdirsOf t

/-- The file-system paths a trace creates or writes (both `mkdirp` and
`writeFile`). -/
def fsPathsOf : List Event → List (List String)
  | [] => []
  | Event.mkdirp p :: t => p :: fsPathsOf t
  | Event.writeFile p _ :: t => p :: fsPathsOf t
  | _ :: t => fsPathsOf t

/-- Whether `p` lies strictly under directory `base`: `base` is a proper
initial segment of the segments of `p`. -/
def underDir (base p : List String) : Bool :=
  decide (base.length < p.length) && decide (p.take base.length = base)

/-- Drop leading JSON whitespace. -/
def skipWs : List Char → List Char
  | c :: t => if c = ' ' ∨ c = '\n' ∨ c = '\t' ∨ c = '\r' then skipWs t else c :: t
  | [] => []

/-- Read the characters of a JSON string literal (no escape sequences)
up to the closing quote; returns the content and the remaining input. -/
def takeStringChars : List Char → Option (List Char × List Char)
  | [] => none
  | '"' :: t => some ([], t)
  | c :: t =>
    match takeStringChars t with
    | some (s, r) => some (c :: s, r)
    | none => none

/-- Parse a JSON string literal, including its opening quote. -/
def parseJsonString (cs : List Char) : Option (String × List Char) :=
  match cs with
  | '"' :: t => (takeStringChars t).map (fun sr => (String.mk sr.1, sr.2))
  | _ => none

/-- Parse one or more `"key": "value"` members separated by commas, up
to and including the closing brace.  `fuel` bounds the recursion. -/
def parseMembers : Nat → List Char → Option (List (String × String) × List Char)
  | 0, _ => none
  | fuel + 1, cs =>
    match parseJsonString (skipWs cs) with
    | none => none
    | some (k, r1) =>
      match skipWs r1 with
      | ':' :: r2 =>
        match parseJsonString (skipWs r2) with
        | none => none
        | some (v, r3) =>
          match skipWs r3 with
          | ',' :: r4 =>
            match parseMembers fuel r4 with
            | some (ms, rest) => some ((k, v) :: ms, rest)
            | none => none
          | '\x7d' :: r4 => some ([(k, v)], r4)
          | _ => none
      | _ => none

/-- Parse a flat JSON object whose values are all strings; succeeds only
when the whole input is consumed.  Returns the key/value pairs in
source order. -/
def parseJsonObj (s : String) : Option (List (String × String)) :=
  match skipWs s.data with
  | '\x7b' :: r =>
    match skipWs r with
    | '\x7d' :: r2 => if (skipWs r2).isEmpty then some [] else none
    | _ =>
      match parseMembers s.length r with
      | some (ms, rest) => if (skipWs rest).isEmpty then some ms else none
      | none => none
  | _ => none

/-- The step 1 side effects (`scaffold.mjs` lines 12–17) on the runs
that pass the precondition check: nothing when the directory already
exists (and is empty), one recursive directory creation otherwise. -/
def step1Events (cfg : Config) (env : Env) : List Event :=
  if env.appDirPresent then [] else [Event.mkdirp (appDirOf cfg env)]

/-- A concrete environment for instantiations: empty parent directory,
no pre-existing target, every child process succeeds. -/
def okEnv : Env :=
  { cwd := ["home"], appDirPresent := false, appDirEntries := [],
    spawnOk := fun _ => true, spawnErrMsg := fun _ => "spawn failed" }

/-- Like `okEnv` but the target directory already exists and holds one entry. -/
def envNonempty : Env :=
  { okEnv with appDirPresent := true, appDirEntries := ["old.txt"] }

/-- Like `okEnv` but the target directory already exists and is empty. -/
def envEmptyDir : Env :=
  { okEnv with appDirPresent := true, appDirEntries := [] }

/-- Like `okEnv` but the child processes from index `j` onwards fail. -/
def envFailFrom (j : Nat) : Env :=
  { okEnv with
    spawnOk := fun i => decide (i < j)
    spawnErrMsg := fun i => "Command failed " ++ toString i }

lemma spawnsOf_append (a b : List Event) :
    spawnsOf (a ++ b) = spawnsOf a ++ spawnsOf b := by
  induction a with
  | nil => rfl
  | cons e t ih => cases e <;> simp [spawnsOf, ih]

lemma writesOf_append (a b : List Event) :
    writesOf (a ++ b) = writesOf a ++ writesOf b := by
  induction a with
  | nil => rfl
  | cons e t ih => cases e <;> simp [writesOf, ih]

lemma mkdirsOf_append (a b : List Event) :
    mkdirsOf (a ++ b) = mkdirsOf a ++ mkdirsOf b := by
  induction a with
  | nil => rfl
  | cons e t ih => cases e <;> simp [mkdirsOf, ih]

lemma fsPathsOf_append (a b : List Event) :
    fsPathsOf (a ++ b) = fsPathsOf a ++ fsPathsOf b := by
  induction a with
  | nil => rfl
  | cons e t ih => cases e <;> simp [fsPathsOf, ih]

lemma spawnsOf_map_spawnEvent (l : List (String × List String × List String)) :
    spawnsOf (l.map spawnEvent) = l := by
  induction l with
  | nil => rfl
  | cons s t ih => obtain ⟨c, a, w⟩ := s; simp [spawnEvent, spawnsOf, ih]

lemma mkdirsOf_map_spawnEvent (l : List (String × List String × List String)) :
    mkdirsOf (l.map spawnEvent) = [] := by
  induction l with
  | nil => rfl
  | cons s t ih => simp [spawnEvent, mkdirsOf, ih]

lemma writesOf_map_spawnEvent (l : List (String × List String × List String)) :
    writesOf (l.map spawnEvent) = [] := by
  induction l with
  | nil => rfl
  | cons s t ih => simp [spawnEvent, writesOf, ih]

lemma fsPathsOf_map_spawnEvent (l : List (String × List String × List String)) :
    fsPathsOf (l.map spawnEvent) = [] := by
  induction l with
  | nil => rfl
  | cons s t ih => simp [spawnEvent, fsPathsOf, ih]

lemma spawnsOf_map_mkdirp (l : List (List String)) :
    spawnsOf (l.map Event.mkdirp) = [] := by
  induction l with
  | nil => rfl
  | cons p t ih => simp [spawnsOf, ih]

lemma mkdirsOf_map_mkdirp (l : List (List String)) :
    mkdirsOf (l.map Event.mkdirp) = l := by
  induction l with
  | nil => rfl
  | cons p t ih => simp [mkdirsOf, ih]

lemma writesOf_map_mkdirp (l : List (List String)) :
    writesOf (l.map Event.mkdirp) = [] := by
  induction l with
  | nil => rfl
  | cons p t ih => simp [writesOf, ih]

lemma fsPathsOf_map_mkdirp (l : List (List String)) :
    fsPathsOf (l.map Event.mkdirp) = l := by
  induction l with
  | nil => rfl
  | cons p t ih => simp [fsPathsOf, ih]

lemma spawnsOf_map_writeEvent (l : List (List String × String)) :
    spawnsOf (l.map writeEvent) = [] := by
  induction l with
  | nil => rfl
  | cons pc t ih => simp [writeEvent, spawnsOf, ih]

lemma mkdirsOf_map_writeEvent (l : List (List String × String)) :
    mkdirsOf (l.map writeEvent) = [] := by
  induction l with
  | nil => rfl
  | cons pc t ih => simp [writeEvent, mkdirsOf, ih]

lemma writesOf_map_writeEvent (l : List (List String × String)) :
    writesOf (l.map writeEvent) = l := by
  induction l with
  | nil => rfl
  | cons pc t ih => obtain ⟨p, c⟩ := pc; simp [writeEvent, writesOf, ih]

lemma fsPathsOf_map_writeEvent (l : List (List String × String)) :
    fsPathsOf (l.map writeEvent) = l.map Prod.fst := by
  induction l with
  | nil => rfl
  | cons pc t ih => simp [writeEvent, fsPathsOf, ih]

lemma runSpawns_ok (env : Env) (l : List (String × List String × List String)) (i : Nat)
    (hok : ∀ m, m < l.length → env.spawnOk (i + m) = true) :
    runSpawns env i l = (l.map spawnEvent, .ok ()) := by
  induction l generalizing i with
  | nil => rfl
  | cons s t ih =>
    have h0 : env.spawnOk i = true := by simpa using hok 0 (by simp)
    have ht := ih (i + 1) (fun m hm => by
      rw [show i + 1 + m = i + (m + 1) by omega]
      exact hok (m + 1) (by simp only [List.length_cons]; omega))
    simp [runSpawns, h0, ht]

lemma runSpawns_fail (env : Env) (l : List (String × List String × List String))
    (i j : Nat) (hj : j < l.length)
    (hok : ∀ m, m < j → env.spawnOk (i + m) = true)
    (hf : env.spawnOk (i + j) = false) :
    runSpawns env i l
      = ((l.take (j + 1)).map spawnEvent, .error (env.spawnErrMsg (i + j))) := by
  induction l generalizing i j with
  | nil => simp at hj
  | cons s t ih =>
    cases j with
    | zero =>
      have h0 : env.spawnOk i = false := by simpa using hf
      simp [runSpawns, h0]
    | succ m =>
      have h0 : env.spawnOk i = true := by simpa using hok 0 (Nat.succ_pos m)
      have hm : m < t.length := by simp only [List.length_cons] at hj; omega
      have ht := ih (i + 1) m hm
        (fun k hk => by
          rw [show i + 1 + k = i + (k + 1) by omega]
          exact hok (k + 1) (by omega))
        (by rw [show i + 1 + m = i + (m + 1) by omega]; exact hf)
      rw [show i + (m + 1) = i + 1 + m by omega]
      simp [runSpawns, h0, ht]

lemma spawnsOf_scaffoldTail (appDir : List String) :
    spawnsOf (scaffoldTail appDir) = [] := by
  simp [scaffoldTail, folderEvents, spawnsOf_append, spawnsOf_map_mkdirp,
    spawnsOf_map_writeEvent, spawnsOf]

lemma mkdirsOf_scaffoldTail (appDir : List String) :
    mkdirsOf (scaffoldTail appDir) = srcFolderPaths appDir ++ [appDir ++ ["public"]] := by
  simp [scaffoldTail, folderEvents, srcFolderPaths, mkdirsOf_append,
    mkdirsOf_map_mkdirp, mkdirsOf_map_writeEvent, mkdirsOf]

lemma writesOf_scaffoldTail (appDir : List String) :
    writesOf (scaffoldTail appDir) = fileWrites appDir := by
  simp [scaffoldTail, folderEvents, fileWrites, writesOf_append,
    writesOf_map_mkdirp, writesOf_map_writeEvent, writesOf]

lemma fsPathsOf_scaffoldTail (appDir : List String) :
    fsPathsOf (scaffoldTail appDir)
      = srcFolderPaths appDir ++ [appDir ++ ["public"]]
        ++ (fileWrites appDir).map Prod.fst := by
  simp [scaffoldTail, folderEvents, srcFolderPaths, fileWrites, fsPathsOf_append,
    fsPathsOf_map_mkdirp, fsPathsOf_map_writeEvent, fsPathsOf]

lemma underDir_append_cons (base : List String) (s : String) (t : List String) :
    underDir base (base ++ s :: t) = true := by
  simp only [underDir, Bool.and_eq_true, decide_eq_true_eq]
  exact ⟨by simp [List.length_append], List.take_left base (s :: t)⟩

lemma underDir_self (base : List String) : underDir base base = false := by
  simp [underDir]

lemma scaffoldTail_under (appDir : List String) :
    ∀ p ∈ fsPathsOf (scaffoldTail appDir), underDir appDir p = true := by
  simp only [fsPathsOf_scaffoldTail, srcFolderPaths, fileWrites, List.map_cons,
    List.map_nil, List.append_assoc, List.cons_append, List.nil_append,
    List.forall_mem_append, List.forall_mem_cons, List.forall_mem_nil]
  simp [underDir_append_cons]

lemma plannedSpawns_length (cfg : Config) (cwd appDir : List String) :
    (plannedSpawns cfg cwd appDir).length = if cfg.install then 4 else 1 := by
  cases h : cfg.install <;> simp [plannedSpawns, h]

lemma scaffold_of_precondition (cfg : Config) (env : Env)
    (hpre : env.appDirPresent = false ∨ env.appDirEntries = []) :
    scaffold cfg env = scaffoldFrom cfg env (appDirOf cfg env) (step1Events cfg env) := by
  rcases hpre with h | h
  · simp [scaffold, step1Events, h]
  · by_cases hp : env.appDirPresent
    · simp [scaffold, step1Events, hp, h]
    · simp [scaffold, step1Events, hp]

lemma scaffold_ok (cfg : Config) (env : Env)
    (hok : ∀ m, env.spawnOk m = true)
    (hpre : env.appDirPresent = false ∨ env.appDirEntries = []) :
    scaffold cfg env
      = { outcome := .ok (),
          trace := step1Events cfg env
            ++ (plannedSpawns cfg env.cwd (appDirOf cfg env)).map spawnEvent
            ++ scaffoldTail (appDirOf cfg env) } := by
  rw [scaffold_of_precondition cfg env hpre]
  have h := runSpawns_ok env (plannedSpawns cfg env.cwd (appDirOf cfg env)) 0
    (fun m _ => by rw [Nat.zero_add]; exact hok m)
  simp [scaffoldFrom, h]

lemma scaffold_fail (cfg : Config) (env : Env) (j : Nat)
    (hpre : env.appDirPresent = false ∨ env.appDirEntries = [])
    (hok : ∀ m, m < j → env.spawnOk m = true) (hf : env.spawnOk j = false)
    (hj : j < (plannedSpawns cfg env.cwd (appDirOf cfg env)).length) :
    scaffold cfg env
      = { outcome := .error (env.spawnErrMsg j),
          trace := step1Events cfg env
            ++ ((plannedSpawns cfg env.cwd (appDirOf cfg env)).take (j + 1)).map
                 spawnEvent } := by
  rw [scaffold_of_precondition cfg env hpre]
  have h := runSpawns_fail env (plannedSpawns cfg env.cwd (appDirOf cfg env)) 0 j hj
    (fun m hm => by rw [Nat.zero_add]; exact hok m hm)
    (by rw [Nat.zero_add]; exact hf)
  simp [scaffoldFrom, h]

lemma runSpawns_head (env : Env) (i : Nat) (x : String × List String × List String)
    (rest : List (String × List String × List String)) :
    ∃ t, (runSpawns env i (x :: rest)).1 = spawnEvent x :: t := by
  by_cases h : env.spawnOk i <;> simp [runSpawns, h]

lemma mem_fsPathsOf_of_mem_mkdirsOf (t : List Event) (p : List String)
    (hp : p ∈ mkdirsOf t) : p ∈ fsPathsOf t := by
  induction t with
  | nil => simp [mkdirsOf] at hp
  | cons e r ih =>
    cases e with
    | spawn c a w => exact ih (by simpa [mkdirsOf, fsPathsOf] using hp)
    | mkdirp q =>
      rcases (by simpa [mkdirsOf] using hp : p = q ∨ p ∈ mkdirsOf r) with h | h
      · simp [fsPathsOf, h]
      · simp [fsPathsOf, ih h]
    | writeFile q c =>
      simp only [mkdirsOf] at hp
      simp [fsPathsOf, ih hp]
    | log m => exact ih (by simpa [mkdirsOf, fsPathsOf] using hp)

lemma runSpawns_shape (env : Env) (l : List (String × List String × List String))
    (i : Nat) : ∃ k, (runSpawns env i l).1 = (l.take k).map spawnEvent := by
  induction l generalizing i with
  | nil => exact ⟨0, rfl⟩
  | cons s t ih =>
    by_cases h : env.spawnOk i
    · obtain ⟨k, hk⟩ := ih (i + 1)
      exact ⟨k + 1, by simp [runSpawns, h, hk]⟩
    · exact ⟨1, by simp [runSpawns, h]⟩

lemma plannedSpawns_eq (cfg : Config) (cwd appDir : List String) :
    plannedSpawns cfg cwd appDir
      = ((generatorCmdArgs cfg.packageManager cfg.appName).1,
         (generatorCmdArgs cfg.packageManager cfg.appName).2, cwd)
        :: (if cfg.install then
             [ (cfg.packageManager, ["install"], appDir),
               (cfg.packageManager, ["add", "-D", "sass"], appDir),
               (cfg.packageManager,
                 ["add", "@reduxjs/toolkit", "react-redux", "axios", "react-hot-toast"],
                 appDir) ]
            else []) := rfl

lemma spawnsOf_step1Events (cfg : Config) (env : Env) :
    spawnsOf (step1Events cfg env) = [] := by
  by_cases h : env.appDirPresent <;> simp [step1Events, h, spawnsOf]

lemma writesOf_step1Events (cfg : Config) (env : Env) :
    writesOf (step1Events cfg env) = [] := by
  by_cases h : env.appDirPresent <;> simp [step1Events, h, writesOf]

lemma fsPathsOf_step1Events (cfg : Config) (env : Env) :
    fsPathsOf (step1Events cfg env)
      = if env.appDirPresent then [] else [appDirOf cfg env] := by
  by_cases h : env.appDirPresent <;> simp [step1Events, h, fsPathsOf]

lemma scaffoldFrom_trace_head (cfg : Config) (env : Env) (appDir : List String)
    (t0 : List Event) :
    ∃ rest, (scaffoldFrom cfg env appDir t0).trace
      = t0 ++ Event.spawn (generatorCmdArgs cfg.packageManager cfg.appName).1
          (generatorCmdArgs cfg.packageManager cfg.appName).2 env.cwd :: rest := by
  obtain ⟨t, ht⟩ := runSpawns_head env 0
    ((generatorCmdArgs cfg.packageManager cfg.appName).1,
      (generatorCmdArgs cfg.packageManager cfg.appName).2, env.cwd)
    (if cfg.install then
        [ (cfg.packageManager, ["install"], appDir),
          (cfg.packageManager, ["add", "-D", "sass"], appDir),
          (cfg.packageManager,
            ["add", "@reduxjs/toolkit", "react-redux", "axios", "react-hot-toast"],
            appDir) ]
      else [])
  rw [← plannedSpawns_eq cfg env.cwd appDir] at ht
  cases h2 : (runSpawns env 0 (plannedSpawns cfg env.cwd appDir)).2 with
  | ok u => exact ⟨t ++ scaffoldTail appDir, by simp [scaffoldFrom, ht, h2, spawnEvent]⟩
  | error m => exact ⟨t, by simp [scaffoldFrom, ht, h2, spawnEvent]⟩

lemma fileWrites_contents_nonempty (appDir : List String) :
    ∀ pc ∈ fileWrites appDir, pc.2 ≠ "" := by
  intro pc hpc
  simp only [fileWrites, List.mem_cons, List.not_mem_nil, or_false] at hpc
  rcases hpc with rfl|rfl|rfl|rfl|rfl|rfl|rfl|rfl|rfl|rfl|rfl|rfl|rfl|rfl|rfl|rfl|rfl <;>
    (dsimp only; decide)

lemma scaffoldFrom_paths (cfg : Config) (env : Env) (t0 : List Event) :
    ∀ p ∈ fsPathsOf (scaffoldFrom cfg env (appDirOf cfg env) t0).trace,
      p ∈ fsPathsOf t0 ∨ underDir (appDirOf cfg env) p = true := by
  intro p hp
  obtain ⟨k, hk⟩ := runSpawns_shape env (plannedSpawns cfg env.cwd (appDirOf cfg env)) 0
  cases h2 : (runSpawns env 0 (plannedSpawns cfg env.cwd (appDirOf cfg env))).2 with
  | ok u =>
    simp only [scaffoldFrom, h2, hk] at hp
    rw [fsPathsOf_append, fsPathsOf_append, fsPathsOf_map_spawnEvent] at hp
    simp only [List.append_nil, List.nil_append, List.mem_append] at hp
    rcases hp with hp | hp
    · exact Or.inl hp
    · exact Or.inr (scaffoldTail_under _ p hp)
  | error m =>
    simp only [scaffoldFrom, h2, hk] at hp
    rw [fsPathsOf_append, fsPathsOf_append, fsPathsOf_map_spawnEvent] at hp
    simp only [fsPathsOf, List.append_nil, List.nil_append, List.mem_append,
      List.not_mem_nil, or_false] at hp
    exact Or.inl hp

/-- C1: if the target directory (resolved from `appName` against the
working directory) exists and contains at least one entry, `scaffold`
throws an error whose message contains the requested directory name, and
its trace is empty — no child process was spawned and no file or
directory was created or written, so the file system is unchanged. -/
theorem scaffold_nonempty_dir_aborts_unchanged (cfg : Config) (env : Env)
    (hp : env.appDirPresent = true) (hne : env.appDirEntries ≠ []) :
    (scaffold cfg env).outcome = .error (dirNotEmptyMsg cfg.appName)
    ∧ (∃ p q, dirNotEmptyMsg cfg.appName = p ++ cfg.appName ++ q)
    ∧ (scaffold cfg env).trace = [] := by
  have hl : env.appDirEntries.length ≠ 0 := by
    simpa [List.length_eq_zero] using hne
  refine ⟨?_, ⟨"Directory \x27", "\x27 already exists and is not empty.", rfl⟩, ?_⟩
  · simp [scaffold, hp, hl]
  · simp [scaffold, hp, hl]

/-- C1, instantiated: a populated `demo` directory makes the run fail
with an empty trace. -/
theorem scaffold_nonempty_dir_aborts_unchanged_witness :
    (scaffold ⟨"demo", "npm", true⟩ envNonempty).outcome
      = .error (dirNotEmptyMsg "demo")
    ∧ (scaffold ⟨"demo", "npm", true⟩ envNonempty).trace = [] := by
  have h := scaffold_nonempty_dir_aborts_unchanged ⟨"demo", "npm", true⟩ envNonempty
    rfl (by decide)
  exact ⟨h.1, h.2.2⟩

/-- C7: step 1 of `scaffold` — when the target path does not exist it is
created (with parents) as the very first side effect, and the run
proceeds to the generator spawn; when it exists and is empty, no
directory creation happens for it (the target itself is never the
subject of a `mkdirp`) and the run proceeds directly to the generator
spawn. -/
theorem scaffold_step1_branches (cfg : Config) (env : Env) :
    (env.appDirPresent = false →
      ∃ rest, (scaffold cfg env).trace
        = Event.mkdirp (appDirOf cfg env)
          :: Event.spawn (generatorCmdArgs cfg.packageManager cfg.appName).1
               (generatorCmdArgs cfg.packageManager cfg.appName).2 env.cwd :: rest)
    ∧ (env.appDirPresent = true → env.appDirEntries = [] →
        appDirOf cfg env ∉ mkdirsOf (scaffold cfg env).trace
        ∧ ∃ rest, (scaffold cfg env).trace
            = Event.spawn (generatorCmdArgs cfg.packageManager cfg.appName).1
                (generatorCmdArgs cfg.packageManager cfg.appName).2 env.cwd :: rest) := by
  constructor
  · intro h
    rw [scaffold_of_precondition cfg env (Or.inl h)]
    obtain ⟨rest, hr⟩ :=
      scaffoldFrom_trace_head cfg env (appDirOf cfg env) (step1Events cfg env)
    refine ⟨rest, ?_⟩
    rw [hr]
    simp [step1Events, h]
  · intro hp he
    rw [scaffold_of_precondition cfg env (Or.inr he)]
    constructor
    · intro hmem
      have hfs := mem_fsPathsOf_of_mem_mkdirsOf _ _ hmem
      rcases scaffoldFrom_paths cfg env (step1Events cfg env) _ hfs with h1 | h1
      · rw [fsPathsOf_step1Events, hp] at h1
        simp at h1
      · rw [underDir_self] at h1
        simp at h1
    · obtain ⟨rest, hr⟩ :=
        scaffoldFrom_trace_head cfg env (appDirOf cfg env) (step1Events cfg env)
      refine ⟨rest, ?_⟩
      rw [hr]
      simp [step1Events, hp]

/-- C7, instantiated: with no pre-existing target the run starts by
creating `home/demo` and then spawns the generator; with an existing
empty target no `mkdirp` of `home/demo` ever appears. -/
theorem scaffold_step1_branches_witness :
    (scaffold ⟨"demo", "npm", true⟩ okEnv).trace.take 2
      = [ Event.mkdirp ["home", "demo"],
          Event.spawn "npm" ["create", "vite@latest", "demo", "--", "--template", "react"]
            ["home"] ]
    ∧ ["home", "demo"] ∉ mkdirsOf (scaffold ⟨"demo", "npm", true⟩ envEmptyDir).trace := by
  have h1 := (scaffold_step1_branches ⟨"demo", "npm", true⟩ okEnv).1 rfl
  have h2 := (scaffold_step1_branches ⟨"demo", "npm", true⟩ envEmptyDir).2 rfl rfl
  obtain ⟨rest, hr⟩ := h1
  exact ⟨by rw [hr]; rfl, h2.1⟩

/-- C3: in any run that passes the step 1 check, the first child process
spawned is the generator invocation for the selected package manager,
with the four fixed vendor-specific command/argument mappings, and any
value outside the four supported ones resolves to the npm mapping
instead of failing. -/
theorem generator_invocation_mapping (cfg : Config) (env : Env)
    (hpre : env.appDirPresent = false ∨ env.appDirEntries = []) :
    (spawnsOf (scaffold cfg env).trace).head?
      = some ((generatorCmdArgs cfg.packageManager cfg.appName).1,
              (generatorCmdArgs cfg.packageManager cfg.appName).2, env.cwd)
    ∧ generatorCmdArgs "npm" cfg.appName
        = ("npm", ["create", "vite@latest", cfg.appName, "--", "--template", "react"])
    ∧ generatorCmdArgs "pnpm" cfg.appName
        = ("pnpm", ["create", "vite", cfg.appName, "--template", "react"])
    ∧ generatorCmdArgs "yarn" cfg.appName
        = ("yarn", ["create", "vite", cfg.appName, "--template", "react"])
    ∧ generatorCmdArgs "bun" cfg.appName
        = ("bun", ["x", "create-vite", cfg.appName, "--template", "react"])
    ∧ (cfg.packageManager ∉ (["npm", "pnpm", "yarn", "bun"] : List String) →
        generatorCmdArgs cfg.packageManager cfg.appName
          = ("npm", ["create", "vite@latest", cfg.appName, "--", "--template", "react"])) := by
  refine ⟨?_, rfl, rfl, rfl, rfl, ?_⟩
  · rw [scaffold_of_precondition cfg env hpre]
    obtain ⟨rest, hr⟩ :=
      scaffoldFrom_trace_head cfg env (appDirOf cfg env) (step1Events cfg env)
    rw [hr, spawnsOf_append, spawnsOf_step1Events, spawnsOf]
    rfl
  · intro h
    simp only [List.mem_cons, List.not_mem_nil, or_false, not_or] at h
    obtain ⟨h1, h2, h3, h4⟩ := h
    simp [generatorCmdArgs, h2, h3, h4]

/-- C3, instantiated: an unrecognized manager (`deno`) still spawns the
npm generator invocation first. -/
theorem generator_invocation_mapping_witness :
    (spawnsOf (scaffold ⟨"demo", "deno", true⟩ okEnv).trace).head?
      = some ("npm", ["create", "vite@latest", "demo", "--", "--template", "react"], ["home"])
    ∧ generatorCmdArgs "deno" "demo"
      = ("npm", ["create", "vite@latest", "demo", "--", "--template", "react"]) := by
  have h := generator_invocation_mapping ⟨"demo", "deno", true⟩ okEnv (Or.inl rfl)
  exact ⟨by rw [h.1]; rfl, h.2.2.2.2.2 (by decide)⟩

/-- C2: after a successful run (step 1 check passed, every child process
succeeded), each of the seventeen fixed step 5 files has been written
with non-empty content; `public/config.json` is among them and its
content parses as a JSON object with exactly the key `apiEndpoint`
mapped to `http://localhost:8000`. -/
theorem step5_files_written_nonempty (cfg : Config) (env : Env)
    (hok : ∀ m, env.spawnOk m = true)
    (hpre : env.appDirPresent = false ∨ env.appDirEntries = []) :
    (scaffold cfg env).outcome = .ok ()
    ∧ (∀ pc ∈ fileWrites (appDirOf cfg env),
        Event.writeFile pc.1 pc.2 ∈ (scaffold cfg env).trace ∧ pc.2 ≠ "")
    ∧ (appDirOf cfg env ++ ["public", "config.json"], configJson)
        ∈ fileWrites (appDirOf cfg env)
    ∧ parseJsonObj configJson = some [("apiEndpoint", "http://localhost:8000")] := by
  have h := scaffold_ok cfg env hok hpre
  refine ⟨by rw [h], ?_, by simp [fileWrites], by decide⟩
  intro pc hpc
  refine ⟨?_, fileWrites_contents_nonempty _ pc hpc⟩
  rw [h]
  simp only [scaffoldTail]
  exact List.mem_append_right _
    (List.mem_append_left _
      (List.mem_append_right _ (List.mem_map_of_mem writeEvent hpc)))

/-- C2, instantiated: the `config.json` write is in the trace of the
`demo` run and its content is the one-key JSON object. -/
theorem step5_files_written_nonempty_witness :
    Event.writeFile ["home", "demo", "public", "config.json"] configJson
      ∈ (scaffold ⟨"demo", "npm", true⟩ okEnv).trace
    ∧ configJson ≠ ""
    ∧ parseJsonObj configJson = some [("apiEndpoint", "http://localhost:8000")] := by
  have h := step5_files_written_nonempty ⟨"demo", "npm", true⟩ okEnv
    (fun m => rfl) (Or.inl rfl)
  have hm := h.2.1 _ h.2.2.1
  exact ⟨hm.1, hm.2, h.2.2.2⟩

/-- C4: with `install = false` no package-manager install or add command
is spawned — the only child process is the generator — while the step 4
directory creations and step 5 file writes are exactly those of the
corresponding `install = true` run. -/
theorem no_install_skips_step3 (cfg : Config) (env : Env)
    (hni : cfg.install = false) (hok : ∀ m, env.spawnOk m = true)
    (hpre : env.appDirPresent = false ∨ env.appDirEntries = []) :
    spawnsOf (scaffold cfg env).trace
      = [((generatorCmdArgs cfg.packageManager cfg.appName).1,
          (generatorCmdArgs cfg.packageManager cfg.appName).2, env.cwd)]
    ∧ writesOf (scaffold cfg env).trace = fileWrites (appDirOf cfg env)
    ∧ mkdirsOf (scaffold cfg env).trace
        = mkdirsOf (step1Events cfg env)
          ++ (srcFolderPaths (appDirOf cfg env) ++ [appDirOf cfg env ++ ["public"]])
    ∧ writesOf (scaffold cfg env).trace
        = writesOf (scaffold { cfg with install := true } env).trace
    ∧ mkdirsOf (scaffold cfg env).trace
        = mkdirsOf (scaffold { cfg with install := true } env).trace := by
  have h := scaffold_ok cfg env hok hpre
  have h' := scaffold_ok { cfg with install := true } env hok hpre
  refine ⟨?_, ?_, ?_, ?_, ?_⟩
  · rw [h]
    simp only [spawnsOf_append, spawnsOf_step1Events, spawnsOf_map_spawnEvent,
      spawnsOf_scaffoldTail, List.nil_append, List.append_nil]
    simp [plannedSpawns, hni]
  · rw [h]
    simp [writesOf_append, writesOf_step1Events, writesOf_map_spawnEvent,
      writesOf_scaffoldTail]
  · rw [h]
    simp [mkdirsOf_append, mkdirsOf_map_spawnEvent, mkdirsOf_scaffoldTail]
  · rw [h, h']
    simp [writesOf_append, writesOf_step1Events, writesOf_map_spawnEvent,
      writesOf_scaffoldTail, appDirOf]
  · rw [h, h']
    simp [mkdirsOf_append, mkdirsOf_map_spawnEvent, mkdirsOf_scaffoldTail,
      step1Events, appDirOf]

/-- C4, instantiated: the no-install `demo` run spawns only the
generator and still writes all seventeen files. -/
theorem no_install_skips_step3_witness :
    spawnsOf (scaffold ⟨"demo", "npm", false⟩ okEnv).trace
      = [("npm", ["create", "vite@latest", "demo", "--", "--template", "react"], ["home"])]
    ∧ writesOf (scaffold ⟨"demo", "npm", false⟩ okEnv).trace
      = fileWrites ["home", "demo"] := by
  have h := no_install_skips_step3 ⟨"demo", "npm", false⟩ okEnv rfl
    (fun m => rfl) (Or.inl rfl)
  exact ⟨by rw [h.1]; rfl, h.2.1⟩

/-- C5: with `install = true` and all child processes succeeding,
exactly three package-manager commands follow the generator, in order —
`install`, `add -D sass`, `add` of the four runtime packages — each with
the target directory as working directory; and if the first
failing child process is one of them, the commands after it are never
spawned and the error is surfaced. -/
theorem install_step3_commands (cfg : Config) (hinst : cfg.install = true) :
    (∀ env : Env, (∀ m, env.spawnOk m = true) →
      env.appDirPresent = false ∨ env.appDirEntries = [] →
      spawnsOf (scaffold cfg env).trace
        = [ ((generatorCmdArgs cfg.packageManager cfg.appName).1,
             (generatorCmdArgs cfg.packageManager cfg.appName).2, env.cwd),
            (cfg.packageManager, ["install"], appDirOf cfg env),
            (cfg.packageManager, ["add", "-D", "sass"], appDirOf cfg env),
            (cfg.packageManager,
              ["add", "@reduxjs/toolkit", "react-redux", "axios", "react-hot-toast"],
              appDirOf cfg env) ])
    ∧ (∀ env : Env, ∀ j : Nat,
        env.appDirPresent = false ∨ env.appDirEntries = [] →
        (∀ m, m < j → env.spawnOk m = true) → env.spawnOk j = false → j < 4 →
        (scaffold cfg env).outcome = .error (env.spawnErrMsg j)
        ∧ spawnsOf (scaffold cfg env).trace
            = (plannedSpawns cfg env.cwd (appDirOf cfg env)).take (j + 1)) := by
  constructor
  · intro env hok hpre
    rw [scaffold_ok cfg env hok hpre]
    simp only [spawnsOf_append, spawnsOf_step1Events, spawnsOf_map_spawnEvent,
      spawnsOf_scaffoldTail, List.nil_append, List.append_nil]
    simp [plannedSpawns, hinst]
  · intro env j hpre hok hf hj
    have hlen : j < (plannedSpawns cfg env.cwd (appDirOf cfg env)).length := by
      rw [plannedSpawns_length]
      simpa [hinst] using hj
    have h := scaffold_fail cfg env j hpre hok hf hlen
    refine ⟨by rw [h], ?_⟩
    rw [h]
    simp only [spawnsOf_append, spawnsOf_step1Events, spawnsOf_map_spawnEvent,
      List.nil_append]

/-- C5, instantiated: the pnpm run spawns all four commands in order;
when the third child process (the `add -D sass` step) fails, the fourth
is never spawned. -/
theorem install_step3_commands_witness :
    spawnsOf (scaffold ⟨"demo", "pnpm", true⟩ okEnv).trace
      = [ ("pnpm", ["create", "vite", "demo", "--template", "react"], ["home"]),
          ("pnpm", ["install"], ["home", "demo"]),
          ("pnpm", ["add", "-D", "sass"], ["home", "demo"]),
          ("pnpm", ["add", "@reduxjs/toolkit", "react-redux", "axios", "react-hot-toast"],
            ["home", "demo"]) ]
    ∧ (scaffold ⟨"demo", "pnpm", true⟩ (envFailFrom 2)).outcome
      = .error "Command failed 2"
    ∧ spawnsOf (scaffold ⟨"demo", "pnpm", true⟩ (envFailFrom 2)).trace
      = [ ("pnpm", ["create", "vite", "demo", "--template", "react"], ["home"]),
          ("pnpm", ["install"], ["home", "demo"]),
          ("pnpm", ["add", "-D", "sass"], ["home", "demo"]) ] := by
  have h1 := (install_step3_commands ⟨"demo", "pnpm", true⟩ rfl).1 okEnv
    (fun m => rfl) (Or.inl rfl)
  have h2 := (install_step3_commands ⟨"demo", "pnpm", true⟩ rfl).2 (envFailFrom 2) 2
    (Or.inl rfl) (fun m hm => decide_eq_true hm) rfl (by decide)
  exact ⟨by rw [h1]; rfl, h2.1, by rw [h2.2]; rfl⟩

/-- C6: the CLI action maps the outcome of `scaffold` to the process result —
on normal return it prints the done message (which names the next manual
steps: `cd` into the app and run the dev server) and exits 0; on any
thrown error it prints a line containing the message of that error to the
error stream and exits 1. -/
theorem cli_maps_outcome (appName packageManager : String) (install : Bool)
    (env : Env) :
    ((scaffold ⟨appName, packageManager, install⟩ env).outcome = .ok () →
      cliRun appName packageManager install env
        = { exitCode := 0, stdout := [cliDoneMsg appName packageManager], stderr := [] }
      ∧ (∃ p q, cliDoneMsg appName packageManager = p ++ ("cd " ++ appName) ++ q)
      ∧ (∃ p q, cliDoneMsg appName packageManager
          = p ++ (packageManager ++ " run dev") ++ q))
    ∧ (∀ m, (scaffold ⟨appName, packageManager, install⟩ env).outcome = .error m →
        cliRun appName packageManager install env
          = { exitCode := 1, stdout := [], stderr := [cliFailMsg m] }
        ∧ ∃ p q, cliFailMsg m = p ++ m ++ q) := by
  have hcd : ("\n Done. Next:\n  " : String) ++ "cd " = "\n Done. Next:\n  cd " := rfl
  have hrd : (" run dev" : String) ++ "\n" = " run dev\n" := rfl
  constructor
  · intro h
    refine ⟨by simp [cliRun, h],
      ⟨"\n Done. Next:\n  ", "\n  " ++ packageManager ++ " run dev\n", ?_⟩,
      ⟨"\n Done. Next:\n  cd " ++ appName ++ "\n  ", "\n", ?_⟩⟩
    · simp only [cliDoneMsg, ← hcd, String.append_assoc]
    · simp only [cliDoneMsg, ← hrd, String.append_assoc]
  · intro m h
    refine ⟨by simp [cliRun, h], ⟨"\n Scaffold failed: ", "", ?_⟩⟩
    simp [cliFailMsg, String.append_empty]

/-- C6, instantiated: the successful `demo` run exits 0 with the done
message; the non-empty-directory run exits 1 with the error on the
error stream. -/
theorem cli_maps_outcome_witness :
    cliRun "demo" "npm" true okEnv
      = { exitCode := 0, stdout := [cliDoneMsg "demo" "npm"], stderr := [] }
    ∧ cliRun "demo" "npm" true envNonempty
      = { exitCode := 1, stdout := [],
          stderr := [cliFailMsg (dirNotEmptyMsg "demo")] } := by
  have h1 := (cli_maps_outcome "demo" "npm" true okEnv).1 (by rfl)
  have h2 := (cli_maps_outcome "demo" "npm" true envNonempty).2
    (dirNotEmptyMsg "demo") (by rfl)
  exact ⟨h1.1, h2.1⟩

/-- C8: the child processes of any run are spawned strictly in the
planned order (the spawn list of every trace is a prefix of the planned
list — each one is awaited before the next begins), and when the first
failing child process is number `j`, the trace ends at that spawn: no
later spawn, directory creation, file write or log happens, there is no
retry and no cleanup, and the error message is propagated unchanged as
the outcome. -/
theorem child_processes_sequential_abort (cfg : Config) (env : Env) (j : Nat)
    (hpre : env.appDirPresent = false ∨ env.appDirEntries = []) :
    (∃ k, spawnsOf (scaffold cfg env).trace
        = (plannedSpawns cfg env.cwd (appDirOf cfg env)).take k)
    ∧ ((∀ m, m < j → env.spawnOk m = true) → env.spawnOk j = false →
        j < (plannedSpawns cfg env.cwd (appDirOf cfg env)).length →
        (scaffold cfg env).outcome = .error (env.spawnErrMsg j)
        ∧ (scaffold cfg env).trace
            = step1Events cfg env
              ++ ((plannedSpawns cfg env.cwd (appDirOf cfg env)).take (j + 1)).map
                   spawnEvent) := by
  constructor
  · obtain ⟨k, hk⟩ := runSpawns_shape env (plannedSpawns cfg env.cwd (appDirOf cfg env)) 0
    refine ⟨k, ?_⟩
    rw [scaffold_of_precondition cfg env hpre]
    cases h2 : (runSpawns env 0 (plannedSpawns cfg env.cwd (appDirOf cfg env))).2 with
    | ok u =>
      simp only [scaffoldFrom, h2, hk]
      simp only [spawnsOf_append, spawnsOf_step1Events, spawnsOf_map_spawnEvent,
        spawnsOf_scaffoldTail, List.nil_append, List.append_nil]
    | error m =>
      simp only [scaffoldFrom, h2, hk]
      simp only [spawnsOf_append, spawnsOf_step1Events, spawnsOf_map_spawnEvent,
        spawnsOf, List.nil_append, List.append_nil]
  · intro hok hf hj
    have h := scaffold_fail cfg env j hpre hok hf hj
    exact ⟨by rw [h], by rw [h]⟩

/-- C8, instantiated: when the generator succeeds but the `install`
child process (spawn 1) fails, the trace stops right after that spawn
and carries its error message. -/
theorem child_processes_sequential_abort_witness :
    (scaffold ⟨"demo", "npm", true⟩ (envFailFrom 1)).outcome
      = .error "Command failed 1"
    ∧ (scaffold ⟨"demo", "npm", true⟩ (envFailFrom 1)).trace
      = [ Event.mkdirp ["home", "demo"],
          Event.spawn "npm" ["create", "vite@latest", "demo", "--", "--template", "react"]
            ["home"],
          Event.spawn "npm" ["install"] ["home", "demo"] ] := by
  have h := (child_processes_sequential_abort ⟨"demo", "npm", true⟩ (envFailFrom 1) 1
    (Or.inl rfl)).2 (fun m hm => decide_eq_true hm) rfl (by decide)
  exact ⟨h.1, by rw [h.2]; rfl⟩

/-- C9: for a package-manager value outside the supported four, only the
generator invocation falls back to npm; with install enabled, the three
step 3 commands are spawned with the unrecognized value verbatim as the
program name. -/
theorem unknown_pm_installs_verbatim (cfg : Config) (env : Env)
    (hpm : cfg.packageManager ∉ (["npm", "pnpm", "yarn", "bun"] : List String))
    (hinst : cfg.install = true) (hok : ∀ m, env.spawnOk m = true)
    (hpre : env.appDirPresent = false ∨ env.appDirEntries = []) :
    spawnsOf (scaffold cfg env).trace
      = [ ("npm", ["create", "vite@latest", cfg.appName, "--", "--template", "react"],
            env.cwd),
          (cfg.packageManager, ["install"], appDirOf cfg env),
          (cfg.packageManager, ["add", "-D", "sass"], appDirOf cfg env),
          (cfg.packageManager,
            ["add", "@reduxjs/toolkit", "react-redux", "axios", "react-hot-toast"],
            appDirOf cfg env) ] := by
  simp only [List.mem_cons, List.not_mem_nil, or_false, not_or] at hpm
  obtain ⟨h1, h2, h3, h4⟩ := hpm
  rw [scaffold_ok cfg env hok hpre]
  simp only [spawnsOf_append, spawnsOf_step1Events, spawnsOf_map_spawnEvent,
    spawnsOf_scaffoldTail, List.nil_append, List.append_nil]
  simp [plannedSpawns, hinst, generatorCmdArgs, h2, h3, h4]

/-- C9, instantiated: with the unrecognized manager `deno`, the
generator runs under npm but the three install commands run under
`deno`. -/
theorem unknown_pm_installs_verbatim_witness :
    spawnsOf (scaffold ⟨"demo", "deno", true⟩ okEnv).trace
      = [ ("npm", ["create", "vite@latest", "demo", "--", "--template", "react"], ["home"]),
          ("deno", ["install"], ["home", "demo"]),
          ("deno", ["add", "-D", "sass"], ["home", "demo"]),
          ("deno", ["add", "@reduxjs/toolkit", "react-redux", "axios", "react-hot-toast"],
            ["home", "demo"]) ] := by
  exact unknown_pm_installs_verbatim ⟨"demo", "deno", true⟩ okEnv (by decide) rfl
    (fun m => rfl) (Or.inl rfl)

/-- C10: every path `scaffold` itself creates or writes is the target
directory or lies strictly under it, and all the step 4 folder paths and
step 5 file paths lie strictly under it. -/
theorem fs_effects_confined_to_appdir (cfg : Config) (env : Env) :
    (∀ p ∈ fsPathsOf (scaffold cfg env).trace,
        p = appDirOf cfg env ∨ underDir (appDirOf cfg env) p = true)
    ∧ (∀ p ∈ srcFolderPaths (appDirOf cfg env) ++ [appDirOf cfg env ++ ["public"]],
        underDir (appDirOf cfg env) p = true)
    ∧ (∀ pc ∈ fileWrites (appDirOf cfg env),
        underDir (appDirOf cfg env) pc.1 = true) := by
  refine ⟨?_, ?_, ?_⟩
  · intro p hp
    cases hpres : env.appDirPresent with
    | true =>
      by_cases hne : env.appDirEntries = []
      · rw [scaffold_of_precondition cfg env (Or.inr hne)] at hp
        rcases scaffoldFrom_paths cfg env (step1Events cfg env) p hp with h1 | h1
        · rw [fsPathsOf_step1Events, hpres] at h1
          simp at h1
        · exact Or.inr h1
      · have hl : env.appDirEntries.length ≠ 0 := by
          simpa [List.length_eq_zero] using hne
        simp [scaffold, hpres, hl, fsPathsOf] at hp
    | false =>
      rw [scaffold_of_precondition cfg env (Or.inl hpres)] at hp
      rcases scaffoldFrom_paths cfg env (step1Events cfg env) p hp with h1 | h1
      · rw [fsPathsOf_step1Events, hpres] at h1
        simp at h1
        exact Or.inl h1
      · exact Or.inr h1
  · simp only [srcFolderPaths, List.forall_mem_append, List.forall_mem_cons,
      List.forall_mem_nil, List.append_assoc, List.cons_append, List.nil_append]
    simp [underDir_append_cons]
  · simp only [fileWrites, List.forall_mem_cons, List.forall_mem_nil,
      List.append_assoc, List.cons_append, List.nil_append]
    simp [underDir_append_cons]

/-- C10, instantiated: two representative created paths of the `demo`
run lie strictly under `home/demo`. -/
theorem fs_effects_confined_to_appdir_witness :
    underDir ["home", "demo"] ["home", "demo", "src", "HomeLayout.jsx"] = true
    ∧ underDir ["home", "demo"] ["home", "demo", "public"] = true := by
  have h := fs_effects_confined_to_appdir ⟨"demo", "npm", true⟩ okEnv
  exact ⟨h.2.2 (["home", "demo", "src", "HomeLayout.jsx"], homeLayout)
      (by simp [fileWrites, appDirOf, okEnv]),
    h.2.1 (["home", "demo"] ++ ["public"]) (by simp [appDirOf, okEnv])⟩
